import Mathlib

/-!
Verification development for the movie-engine front-end.

The repository is a React/TypeScript client.  We give a shallow embedding of the
parts the specification talks about: the data model (`types.ts`), the API client
(`api.ts`: `handleResponse`, `fetchTop`, `formatMovieToMediaItem`), the listing
page state machine (`Home.tsx`: `load`, `loadMore`, `handleRate`) and the cover
image fallback component (`ImageCover.tsx`).

Modelling conventions:
  * JavaScript numbers are modelled as `ℚ` where fractional values matter
    (ratings) and as `ℕ`/`ℤ` for counts, ids and HTTP statuses.
  * JavaScript truthiness of optional string/number fields is embedded by the
    `jsOrStr` / `jsOrInt` helpers (`""` and `0` are falsy).
  * Asynchronous network calls are embedded by passing the awaited outcome
    (a value or a thrown message, i.e. `Except String _`) as an argument;
    a React component's state is a structure and an event handler is a
    function from state to state.
-/

/-- `MediaType` from `types.ts`: `"MOVIE" | "TV_SHOW"`. -/
inductive MediaType where
  | MOVIE
  | TV_SHOW
deriving DecidableEq, Repr

/-- The nested `actor : { id : number; name : string }` of a `CastMember`. -/
structure ActorRef where
  id : Int
  name : String
deriving DecidableEq, Repr

/-- `CastMember` from `types.ts`. -/
structure CastMember where
  id : Int
  role : String
  actor : ActorRef
deriving DecidableEq, Repr

/-- An element of a raw `cast` array (`movie.cast` when it is an array):
the formatter reads `role`, `actorName` and `name`; absent or non-string
values are modelled as `none`. -/
structure CastArrEntry where
  role : Option String
  actorName : Option String
  name : Option String
deriving DecidableEq, Repr

/-- The raw `actor` object inside an element of `movie.casts`. -/
structure CastsActorRaw where
  id : Option Int
  name : Option String
deriving DecidableEq, Repr

/-- An element of the raw structured `movie.casts` array; `actor` is `none`
when absent or not an object (optional chaining `castMember.actor?.`). -/
structure CastsEntryRaw where
  id : Option Int
  role : Option String
  actor : Option CastsActorRaw
deriving DecidableEq, Repr

/-- The dynamic `movie.cast` value (`cast?: string | any[]` in `types.ts`):
a string, an array, or anything else (absent / other JSON types, which every
branch of the code treats alike). -/
inductive CastRaw where
  | absent
  | str (s : String)
  | arr (entries : List CastArrEntry)
deriving DecidableEq, Repr

/-- `MediaItem` from `types.ts`.  `highlights : any` is modelled as an opaque
optional string; counts are modelled as naturals. -/
structure MediaItem where
  id : Int
  title : String
  description : String
  coverUrl : Option String
  releaseDate : String
  type : MediaType
  avgRating : ℚ
  ratingsCount : ℕ
  casts : List CastMember
  cast : CastRaw
  score : Option ℚ
  highlights : Option String
deriving DecidableEq, Repr

/-- JavaScript `v || d` for an optional string field: `undefined` and the
empty string are falsy. -/
def jsOrStr (v : Option String) (d : String) : String :=
  match v with
  | some s => if s = "" then d else s
  | none => d

/-- JavaScript `v || d` for an optional numeric field: `undefined` and `0`
are falsy. -/
def jsOrInt (v : Option Int) (d : Int) : Int :=
  match v with
  | some n => if n = 0 then d else n
  | none => d

/-- `List.map` with the element index, as in JavaScript
`array.map((x, index) => ...)`; `k` is the index of the head. -/
def mapIdxFrom (f : ℕ → α → β) : ℕ → List α → List β
  | _, [] => []
  | k, a :: as => f k a :: mapIdxFrom f (k + 1) as

/-- Fuel-driven scanner for JavaScript `s.split(sep)` with a non-empty
separator: scan left to right, emit the accumulated segment whenever the
separator is a prefix of the rest.  Structural recursion on the fuel keeps it
kernel-computable; the fuel is instantiated with the string length, which
bounds the number of steps. -/
def jsSplitAux (sep : List Char) : ℕ → List Char → List Char → List (List Char)
  | _, [], cur => [cur.reverse]
  | 0, l, cur => [cur.reverse ++ l]
  | fuel + 1, c :: rest, cur =>
      if sep.isPrefixOf (c :: rest) then
        cur.reverse :: jsSplitAux sep fuel (List.drop (sep.length - 1) rest) []
      else
        jsSplitAux sep fuel rest (c :: cur)

/-- JavaScript `s.split(sep)`, embedded at the character level (so that it
computes inside the kernel; `String.splitOn` agrees but does not reduce).
An empty separator splits into single characters, as in JavaScript. -/
def jsSplit (s sep : String) : List String :=
  match sep.data with
  | [] => s.data.map (fun c => String.mk [c])
  | _ :: _ => (jsSplitAux sep.data s.data.length s.data []).map String.mk

/-- JavaScript `s.trim()`, embedded at the character level: drop leading and
trailing whitespace. -/
def jsTrim (s : String) : String :=
  String.mk (((s.data.dropWhile Char.isWhitespace).reverse.dropWhile
    Char.isWhitespace).reverse)

/-! ## JSON values and the HTTP layer (`api.ts`) -/

/-- A parsed JSON value.  Numbers are modelled as rationals. -/
inductive Json where
  | null
  | bool (b : Bool)
  | num (q : ℚ)
  | str (s : String)
  | arr (elems : List Json)
  | obj (fields : List (String × Json))

/-- Field lookup in a JSON object's field list (first matching key). -/
def fieldLookup : List (String × Json) → String → Option Json
  | [], _ => none
  | (k, v) :: rest, key => if k = key then some v else fieldLookup rest key

/-- JavaScript property access `j.key`: `none` stands for `undefined`
(also when `j` is not an object). -/
def Json.getField : Json → String → Option Json
  | Json.obj fields, key => fieldLookup fields key
  | _, _ => none

/-- JavaScript truthiness of a JSON value (`null`, `false`, `0` and `""` are
falsy; arrays and objects are truthy). -/
def Json.truthy : Json → Bool
  | Json.null => false
  | Json.bool b => b
  | Json.num q => decide (q ≠ 0)
  | Json.str s => decide (s ≠ "")
  | Json.arr _ => true
  | Json.obj _ => true

/-- Truthiness of a possibly-`undefined` value. -/
def truthyOpt (o : Option Json) : Bool :=
  match o with
  | some j => j.truthy
  | none => false

/-- JavaScript `String(v)` coercion used by `new Error(v)`, one level deep
(nested arrays are approximated; the claims only exercise string values). -/
def Json.coerceAtom : Json → String
  | Json.null => "null"
  | Json.bool b => cond b "true" "false"
  | Json.num q => toString q
  | Json.str s => s
  | Json.arr _ => ""
  | Json.obj _ => "[object Object]"

/-- JavaScript `String(v)` coercion used by `new Error(v)`. -/
def Json.coerceString : Json → String
  | Json.arr elems =>
      String.intercalate "," (elems.map (fun j =>
        match j with
        | Json.null => ""
        | j' => j'.coerceAtom))
  | j => j.coerceAtom

/-- An HTTP `Response` as the client observes it: status code, status text and
the body as parsed by `res.json()` (`none` when the body is not valid JSON,
in which case `res.json()` rejects). -/
structure Response where
  status : ℕ
  statusText : String
  body : Option Json

/-- `res.ok` per the fetch standard: status in the range 200–299. -/
def resOk (r : Response) : Bool :=
  decide (200 ≤ r.status) && decide (r.status ≤ 299)

/-- The message of the `Error` thrown by `handleResponse` on a non-2xx
response (`api.ts`):
`errorData = await res.json().catch(() => ({ message: res.statusText }))`
then `errorData.message || "Request failed: " + res.status`. -/
def errorMessage (r : Response) : String :=
  let errorData : Json :=
    match r.body with
    | some j => j
    | none => Json.obj [("message", Json.str r.statusText)]
  match errorData.getField "message" with
  | some v => if v.truthy then v.coerceString else "Request failed: " ++ toString r.status
  | none => "Request failed: " ++ toString r.status

/-- `handleResponse` (`api.ts`): throw on a non-2xx status, otherwise return
the parsed JSON body (`res.json()` itself rejects on an unparseable body). -/
def handleResponse (r : Response) : Except String Json :=
  if resOk r then
    match r.body with
    | some j => Except.ok j
    | none => Except.error "Unexpected end of JSON input"
  else
    Except.error (errorMessage r)

/-! ## `formatMovieToMediaItem` (`api.ts`) -/

/-- A raw movie object as delivered by the server, restricted to the fields
`formatMovieToMediaItem` reads.  Fields are modelled at their declared
TypeScript types; a value of another JSON type is treated as absent. -/
structure RawMovie where
  id : Int
  title : Option String
  description : Option String
  coverUrl : Option String
  releaseDate : Option String
  type : Option MediaType
  avgRating : Option ℚ
  ratingsCount : Option ℕ
  cast : CastRaw
  casts : Option (List CastsEntryRaw)
  score : Option ℚ
  highlights : Option String
deriving DecidableEq, Repr

/-- Whether `movie.cast && typeof movie.cast === 'string'` holds:
`cast` is a non-empty (truthy) string. -/
def castTruthyString : CastRaw → Bool
  | CastRaw.str s => decide (s ≠ "")
  | _ => false

/-- Whether `Array.isArray(movie.cast)` holds. -/
def castIsArray : CastRaw → Bool
  | CastRaw.arr _ => true
  | _ => false

/-- Branch 1 of `formatMovieToMediaItem`: a comma-delimited `cast` string,
`movie.cast.split(', ').filter(name => name.trim()).map((name, index) => ...)`. -/
def castsFromString (s : String) : List CastMember :=
  mapIdxFrom
    (fun index name =>
      { id := (index : Int) + 1
        role := "Actor"
        actor := { id := (index : Int) + 1, name := jsTrim name } })
    0 ((jsSplit s ", ").filter (fun name => jsTrim name ≠ ""))

/-- Branch 2 of `formatMovieToMediaItem`: the structured `movie.casts` array,
mapped entry-by-entry with `||` defaults for ids, roles and actor names. -/
def castsFromCasts (entries : List CastsEntryRaw) : List CastMember :=
  mapIdxFrom
    (fun index c =>
      { id := jsOrInt c.id ((index : Int) + 1)
        role := jsOrStr c.role "Actor"
        actor :=
          { id := jsOrInt (c.actor.bind CastsActorRaw.id) ((index : Int) + 1)
            name := jsOrStr (c.actor.bind CastsActorRaw.name) "Unknown Actor" } })
    0 entries

/-- Branch 3 of `formatMovieToMediaItem`: `movie.cast` itself an array, mapped
entry-by-entry with positional ids and `||` defaults for role and name
(`castMember.actorName || castMember.name || 'Unknown Actor'`). -/
def castsFromCastArr (entries : List CastArrEntry) : List CastMember :=
  mapIdxFrom
    (fun index c =>
      { id := (index : Int) + 1
        role := jsOrStr c.role "Actor"
        actor :=
          { id := (index : Int) + 1
            name := jsOrStr c.actorName (jsOrStr c.name "Unknown Actor") } })
    0 entries

/-- The `castsArray` computed by `formatMovieToMediaItem`, with the source's
branch order: truthy `cast` string, then `casts` array, then `cast` array,
otherwise the initial empty array. -/
def normalizeCasts (m : RawMovie) : List CastMember :=
  if castTruthyString m.cast then
    match m.cast with
    | CastRaw.str s => castsFromString s
    | _ => []
  else
    match m.casts with
    | some entries => castsFromCasts entries
    | none =>
        match m.cast with
        | CastRaw.arr entries => castsFromCastArr entries
        | _ => []

/-- `formatMovieToMediaItem` (`api.ts`): normalize a raw movie payload to a
`MediaItem`, with `||` defaults for the presentational fields and a `typeof`
number check for `avgRating` / `ratingsCount`. -/
def formatMovieToMediaItem (movie : RawMovie) : MediaItem :=
  { id := movie.id
    title := jsOrStr movie.title "Unknown Title"
    description := jsOrStr movie.description "No description available"
    coverUrl :=
      match movie.coverUrl with
      | some s => if s = "" then none else some s
      | none => none
    releaseDate := jsOrStr movie.releaseDate ""
    type := movie.type.getD MediaType.MOVIE
    avgRating := movie.avgRating.getD 0
    ratingsCount := movie.ratingsCount.getD 0
    casts := normalizeCasts movie
    cast := movie.cast
    score := movie.score
    highlights := movie.highlights }

/-! ## Decoding raw JSON movies and `fetchTop` (`api.ts`) -/

/-- Read a string-valued field of a JSON object. -/
def strField (j : Json) (key : String) : Option String :=
  match j.getField key with
  | some (Json.str s) => some s
  | _ => none

/-- Read a number-valued field of a JSON object (the `typeof x === 'number'`
check of the source). -/
def numField (j : Json) (key : String) : Option ℚ :=
  match j.getField key with
  | some (Json.num q) => some q
  | _ => none

/-- Read a numeric field as an integer id (numeric ids are modelled as
integers, rounding down). -/
def intField (j : Json) (key : String) : Option Int :=
  (numField j key).map Rat.floor

/-- Decode the `type` field: only the two legal `MediaType` strings count. -/
def typeField (j : Json) : Option MediaType :=
  match j.getField "type" with
  | some (Json.str "MOVIE") => some MediaType.MOVIE
  | some (Json.str "TV_SHOW") => some MediaType.TV_SHOW
  | _ => none

/-- Decode one element of a raw `cast` array. -/
def decodeCastArrEntry (j : Json) : CastArrEntry :=
  { role := strField j "role"
    actorName := strField j "actorName"
    name := strField j "name" }

/-- Decode one element of a raw `casts` array (the `actor` sub-object is
present only when it is a JSON object, matching `castMember.actor?.`). -/
def decodeCastsEntry (j : Json) : CastsEntryRaw :=
  { id := intField j "id"
    role := strField j "role"
    actor :=
      match j.getField "actor" with
      | some (Json.obj fields) =>
          some { id := intField (Json.obj fields) "id"
                 name := strField (Json.obj fields) "name" }
      | _ => none }

/-- Decode the dynamic `cast` field. -/
def decodeCastRaw (o : Option Json) : CastRaw :=
  match o with
  | some (Json.str s) => CastRaw.str s
  | some (Json.arr elems) => CastRaw.arr (elems.map decodeCastArrEntry)
  | _ => CastRaw.absent

/-- Decode a JSON movie object into the fields `formatMovieToMediaItem`
reads.  A missing or non-numeric `id` is modelled as `0`. -/
def decodeRawMovie (j : Json) : RawMovie :=
  { id := (intField j "id").getD 0
    title := strField j "title"
    description := strField j "description"
    coverUrl := strField j "coverUrl"
    releaseDate := strField j "releaseDate"
    type := typeField j
    avgRating := numField j "avgRating"
    ratingsCount := (numField j "ratingsCount").map (fun q => q.floor.toNat)
    cast := decodeCastRaw (j.getField "cast")
    casts :=
      match j.getField "casts" with
      | some (Json.arr elems) => some (elems.map decodeCastsEntry)
      | _ => none
    score := numField j "score"
    highlights := strField j "highlights" }

/-- The result envelope of the API client's listing/search calls:
`{ items, total, hasMore, filters?, suggestions? }` (`fetchTop` omits the
last two). -/
structure SearchEnvelope where
  items : List MediaItem
  total : ℕ
  hasMore : Bool
  filters : Option (List (String × String))
  suggestions : Option (List String)
deriving DecidableEq, Repr

/-- The empty envelope `fetchTop` falls back to. -/
def emptyTopEnvelope : SearchEnvelope :=
  { items := [], total := 0, hasMore := false, filters := none, suggestions := none }

/-- A numeric field read with `|| 0` (non-numeric truthy values are modelled
as `0`). -/
def natFieldD (j : Json) (key : String) : ℕ :=
  match j.getField key with
  | some (Json.num q) => q.floor.toNat
  | _ => 0

/-- A field read with `|| false`, coerced to its truthiness. -/
def boolFieldD (j : Json) (key : String) : Bool :=
  truthyOpt (j.getField key)

/-- The outcome of `await fetch(...)`: a network error (rejected promise) or
a `Response`. -/
inductive FetchOutcome where
  | networkError (msg : String)
  | response (r : Response)

/-- Interpretation of the parsed body inside `fetchTop`'s `try` block
(`api.ts`, envelope-returning version): the `data.success && data.data`
envelope, a bare JSON array, or the warned unexpected-format fallback. -/
def fetchTopInterpret (limit : ℕ) (data : Json) : SearchEnvelope :=
  if truthyOpt (data.getField "success") && truthyOpt (data.getField "data") then
    let d := (data.getField "data").getD Json.null
    let items :=
      match d.getField "movies" with
      | some (Json.arr movies) => movies.map (fun mj => formatMovieToMediaItem (decodeRawMovie mj))
      | _ => []
    { items := items
      total := natFieldD d "total"
      hasMore := boolFieldD d "hasMore"
      filters := none
      suggestions := none }
  else
    match data with
    | Json.arr movies =>
        let items := movies.map (fun mj => formatMovieToMediaItem (decodeRawMovie mj))
        { items := items
          total := items.length
          hasMore := decide (items.length = limit)
          filters := none
          suggestions := none }
    | _ => emptyTopEnvelope

/-- The body of `fetchTop`'s `try` block: await the fetch, run
`handleResponse`, interpret the parsed data.  An `Except.error` is a thrown
exception reaching the `catch`. -/
def fetchTopTry (limit : ℕ) (out : FetchOutcome) : Except String SearchEnvelope :=
  match out with
  | FetchOutcome.networkError m => Except.error m
  | FetchOutcome.response r =>
      match handleResponse r with
      | Except.ok data => Except.ok (fetchTopInterpret limit data)
      | Except.error m => Except.error m

/-- `fetchTop` (`api.ts`, envelope-returning version): the whole body is
wrapped in `try/catch` and the `catch` returns the empty envelope, so the
returned promise always resolves (`Except.ok`). -/
def fetchTopCall (limit : ℕ) (out : FetchOutcome) : Except String SearchEnvelope :=
  match fetchTopTry limit out with
  | Except.ok e => Except.ok e
  | Except.error _ => Except.ok emptyTopEnvelope

/-! ## The listing page (`Home.tsx`) -/

/-- `LIMIT` (`Home.tsx`). -/
def LIMIT : ℕ := 10

/-- A network request the page can issue: server-side search
(`searchMoviesWithMinLength`) or the top-rated listing (`fetchTop`). -/
inductive FetchCall where
  | search (query : String) (type : MediaType) (limit offset : ℕ)
  | top (type : MediaType) (limit offset : ℕ)
deriving DecidableEq, Repr

/-- Component state of the envelope-based `Home` (`Home.tsx`, second
iteration / `part_001`): `items`, `offsetRef`, `loading`, `hasMore`, `error`,
`totalResults`, `suggestions`, `appliedFilters`, `ratingSubmitting`, plus the
debounced query and the type filter the callbacks close over. -/
structure HomeState where
  typ : MediaType
  query : String
  items : List MediaItem
  offset : ℕ
  loading : Bool
  hasMore : Bool
  error : Option String
  totalResults : ℕ
  suggestions : List String
  filters : List (String × String)
  ratingSubmitting : Bool
deriving DecidableEq, Repr

/-- The fetch decision of `load` (`Home.tsx`): at least 2 characters issues a
server-side search, exactly 0 issues the top-rated listing, otherwise no
request is made (`none`). -/
def loadRequest (query : String) (typ : MediaType) (offset : ℕ) : Option FetchCall :=
  if 2 ≤ query.length then some (FetchCall.search query typ LIMIT offset)
  else if query.length = 0 then some (FetchCall.top typ LIMIT offset)
  else none

/-- The local empty envelope `load` substitutes when the query has exactly one
character: `{ items: [], total: 0, hasMore: false, filters: {}, suggestions: [] }`. -/
def oneCharEnvelope : SearchEnvelope :=
  { items := [], total := 0, hasMore := false, filters := some [], suggestions := some [] }

/-- The envelope `load` ends up with: the awaited server result for the two
fetching branches, the local empty envelope otherwise.  `server` is the
environment answering network requests (an `Except.error` is a rejection). -/
def loadEnvelope (server : FetchCall → Except String SearchEnvelope)
    (query : String) (typ : MediaType) (offset : ℕ) : Except String SearchEnvelope :=
  match loadRequest query typ offset with
  | some call => server call
  | none => Except.ok oneCharEnvelope

/-- One complete run of `load(reset)` (`Home.tsx`, envelope-based iteration):
the in-flight guard, the query-gated fetch, the reset/append state updates,
and the `catch`/`finally` handling. -/
def loadStep (server : FetchCall → Except String SearchEnvelope)
    (reset : Bool) (s : HomeState) : HomeState :=
  if s.loading then s
  else
    let currentOffset := if reset then 0 else s.offset
    match loadEnvelope server s.query s.typ currentOffset with
    | Except.ok result =>
        if reset then
          { s with
              error := none
              loading := false
              items := result.items
              totalResults := result.total
              suggestions := result.suggestions.getD []
              filters := result.filters.getD []
              hasMore := result.hasMore && decide (0 < result.items.length)
              offset := result.items.length }
        else
          { s with
              error := none
              loading := false
              items := s.items ++ result.items
              offset := s.offset + result.items.length
              hasMore := result.hasMore && decide (0 < result.items.length) }
    | Except.error m =>
        { s with
            error := some (if m = "" then "Failed to load" else m)
            loading := false
            items := if reset then [] else s.items }

/-- The optimistic list update of `handleRate` (`Home.tsx`):
`prev.map(item => item.id === id ? { ...item, ratingsCount: item.ratingsCount + 1,
avgRating: ((item.avgRating * item.ratingsCount) + rating) / (item.ratingsCount + 1) } : item)`. -/
def rateOptimistic (id : Int) (rating : ℚ) (items : List MediaItem) : List MediaItem :=
  items.map (fun item =>
    if item.id = id then
      { item with
          ratingsCount := item.ratingsCount + 1
          avgRating := (item.avgRating * (item.ratingsCount : ℚ) + rating)
                        / ((item.ratingsCount : ℚ) + 1) }
    else item)

/-- The state of `Home` after the synchronous part of `handleRate(id, rating)`
has run but before `await rateMovie(id, rating)` resolves. -/
def handleRatePending (id : Int) (rating : ℚ) (s : HomeState) : HomeState :=
  { s with
      ratingSubmitting := true
      items := rateOptimistic id rating s.items }

/-- The outcome of `await rateMovie(...)`. -/
inductive RateOutcome where
  | ok
  | err (msg : String)

/-- One complete run of `handleRate(id, rating)` (`Home.tsx`, envelope-based
iteration): optimistic update, then the network call; its failure only sets
the error banner (`Failed to rate: ...`), the `finally` clears the popup. -/
def handleRateStep (id : Int) (rating : ℚ) (outcome : RateOutcome) (s : HomeState) : HomeState :=
  let pending := handleRatePending id rating s
  match outcome with
  | RateOutcome.ok => { pending with ratingSubmitting := false }
  | RateOutcome.err m =>
      { pending with
          error := some ("Failed to rate: " ++ m)
          ratingSubmitting := false }

/-- Component state of the offset-based `Home` (`Home.tsx`, first iteration):
`items`, `offset`, `loading`, `hasMore`, `error` plus the closed-over
debounced query. -/
structure HomeListState where
  typ : MediaType
  query : String
  items : List MediaItem
  offset : ℕ
  loading : Bool
  hasMore : Bool
  error : Option String
deriving DecidableEq, Repr

/-- One complete run of `load(reset)` (`Home.tsx`, first iteration): fetch a
page of items at the current offset (`fetchPage` answers a fetch at a given
offset), replace or append, advance the offset by `LIMIT`, and set `hasMore`
to whether a full page arrived; a thrown error only sets the banner. -/
def loadListStep (fetchPage : ℕ → Except String (List MediaItem))
    (reset : Bool) (s : HomeListState) : HomeListState :=
  let currentOffset := if reset then 0 else s.offset
  match fetchPage currentOffset with
  | Except.ok data =>
      if reset then
        { s with
            error := none
            loading := false
            items := data
            offset := LIMIT
            hasMore := decide (data.length = LIMIT) }
      else
        { s with
            error := none
            loading := false
            items := s.items ++ data
            offset := s.offset + LIMIT
            hasMore := decide (data.length = LIMIT) }
  | Except.error m =>
      { s with
          error := some (if m = "" then "Failed to load" else m)
          loading := false }

/-- `loadMore` (`Home.tsx`): `if (loading || !hasMore) return; load(false);`. -/
def loadMoreStep (fetchPage : ℕ → Except String (List MediaItem))
    (s : HomeListState) : HomeListState :=
  if s.loading || !s.hasMore then s
  else loadListStep fetchPage false s

/-! ## `CoverImage` (`ImageCover.tsx`) -/

/-- JavaScript `s.endsWith(suffix)`, embedded at the character level. -/
def strEndsWith (s suffix : String) : Bool :=
  decide (suffix.data <:+ s.data)

/-- Component state of `CoverImage` (`ImageCover.tsx`): the current `imgSrc`
and the terminal `hasError` flag. -/
structure CoverState where
  imgSrc : String
  hasError : Bool
deriving DecidableEq, Repr

/-- The initial state: `useState('/movie_covers/' + movieId + '.jpg')`,
`useState(false)`. -/
def coverInit (movieId : Int) : CoverState :=
  { imgSrc := "/movie_covers/" ++ toString movieId ++ ".jpg", hasError := false }

/-- `handleImageError` (`ImageCover.tsx`): on a load error, switch a `.jpg`
source to `.jpeg`; on any further error, set `hasError`. -/
def handleImageError (movieId : Int) (st : CoverState) : CoverState :=
  if strEndsWith st.imgSrc ".jpg" then
    { st with imgSrc := "/movie_covers/" ++ toString movieId ++ ".jpeg" }
  else
    { st with hasError := true }

/-- What `CoverImage` renders: the `img` tag with its current source, or the
placeholder with the title. -/
inductive CoverRender where
  | image (src : String)
  | placeholder (title : String)
deriving DecidableEq, Repr

/-- The render function of `CoverImage`. -/
def coverRender (title : String) (st : CoverState) : CoverRender :=
  if st.hasError then CoverRender.placeholder title
  else CoverRender.image st.imgSrc

/-! ## Remaining definitions used by the claim statements and witnesses -/

/-- Whether the raw `cast` value is a string at all (of any length). -/
def castIsString : CastRaw → Bool
  | CastRaw.str _ => true
  | _ => false

/-- `Array.isArray` on a JSON value. -/
def isJsonArr : Json → Bool
  | Json.arr _ => true
  | _ => false

/-- A parsed `fetchTop` body that matches neither the
`data.success && data.data` envelope nor a bare array: the
`console.warn('Unexpected fetchTop response format')` branch. -/
def unexpectedTopShape (j : Json) : Bool :=
  !(truthyOpt (j.getField "success") && truthyOpt (j.getField "data")) && !(isJsonArr j)

/-- The failure classes of the claim about `fetchTop`: a network failure, a
non-2xx response, an unparseable body, or an unexpected response shape. -/
def badTopOutcome : FetchOutcome → Prop
  | FetchOutcome.networkError _ => True
  | FetchOutcome.response r =>
      resOk r = false ∨ r.body = none ∨
        (∃ j, r.body = some j ∧ unexpectedTopShape j = true)

/-- A concrete media item used by the witnesses. -/
def sampleItem : MediaItem :=
  { id := 1
    title := "Heat"
    description := "d"
    coverUrl := none
    releaseDate := "1995-12-15"
    type := MediaType.MOVIE
    avgRating := 4
    ratingsCount := 1
    casts := []
    cast := CastRaw.absent
    score := none
    highlights := none }

/-- A second concrete media item (a different id) used by the witnesses. -/
def otherItem : MediaItem :=
  { id := 2
    title := "Ronin"
    description := "d2"
    coverUrl := none
    releaseDate := "1998-09-25"
    type := MediaType.MOVIE
    avgRating := 3
    ratingsCount := 4
    casts := []
    cast := CastRaw.absent
    score := none
    highlights := none }

/-- A concrete envelope-based `Home` state used by the witnesses. -/
def sampleHomeState : HomeState :=
  { typ := MediaType.MOVIE
    query := ""
    items := [sampleItem, otherItem]
    offset := 2
    loading := false
    hasMore := true
    error := none
    totalResults := 2
    suggestions := []
    filters := []
    ratingSubmitting := false }

/-- A concrete offset-based `Home` state used by the witnesses. -/
def sampleListState : HomeListState :=
  { typ := MediaType.MOVIE
    query := ""
    items := [sampleItem]
    offset := 10
    loading := false
    hasMore := true
    error := none }

/-- A server environment used by the witnesses: answers every request with a
fixed empty envelope. -/
def constServer : FetchCall → Except String SearchEnvelope :=
  fun _ => Except.ok emptyTopEnvelope

/-- A server environment used by the witnesses: rejects every request. -/
def failingServer : FetchCall → Except String SearchEnvelope :=
  fun _ => Except.error "boom"

/-- A page fetcher used by the witnesses: a full page of ten copies of
`otherItem` at every offset. -/
def pageFetcher : ℕ → Except String (List MediaItem) :=
  fun _ => Except.ok (List.replicate 10 otherItem)

/-- The raw movie whose `cast` field is a structured array (and whose `casts`
field is absent): the counterexample input. -/
def castArrMovie : RawMovie :=
  { id := 7
    title := none
    description := none
    coverUrl := none
    releaseDate := none
    type := none
    avgRating := none
    ratingsCount := none
    cast := CastRaw.arr [{ role := none, actorName := none, name := some "Jean Reno" }]
    casts := none
    score := none
    highlights := none }

/-! ## Helper lemmas -/

theorem mapIdxFrom_length (f : ℕ → α → β) (k : ℕ) (l : List α) :
    (mapIdxFrom f k l).length = l.length := by
  induction l generalizing k with
  | nil => rfl
  | cons a as ih => simp [mapIdxFrom, ih]

theorem mapIdxFrom_getElem? (f : ℕ → α → β) (k i : ℕ) (l : List α) :
    (mapIdxFrom f k l)[i]? = l[i]?.map (f (k + i)) := by
  induction l generalizing k i with
  | nil => simp [mapIdxFrom]
  | cons a as ih =>
      cases i with
      | zero => simp [mapIdxFrom]
      | succ n =>
          simp only [mapIdxFrom, List.getElem?_cons_succ, ih]
          have h : k + (n + 1) = k + 1 + n := by omega
          rw [h]

theorem mapIdxFrom_map (f : ℕ → α → β) (g : β → γ) (k : ℕ) (l : List α) :
    (mapIdxFrom f k l).map g = mapIdxFrom (fun i a => g (f i a)) k l := by
  induction l generalizing k with
  | nil => rfl
  | cons a as ih => simp [mapIdxFrom, ih]

theorem mapIdxFrom_const (g : α → β) (k : ℕ) (l : List α) :
    mapIdxFrom (fun _ a => g a) k l = l.map g := by
  induction l generalizing k with
  | nil => rfl
  | cons a as ih => simp [mapIdxFrom, ih]

theorem mapIdxFrom_mem (f : ℕ → α → β) (k : ℕ) (l : List α) (b : β) :
    b ∈ mapIdxFrom f k l → ∃ i a, b = f i a := by
  induction l generalizing k with
  | nil => intro h; cases h
  | cons a as ih =>
      intro h
      rcases List.mem_cons.mp h with h | h
      · exact ⟨k, a, h⟩
      · exact ih (k + 1) h

/-- Two suffixes of the same list with equal lengths are equal. -/
theorem suffix_eq_of_length_eq {α : Type} {l₁ l₂ l : List α}
    (h1 : l₁ <:+ l) (h2 : l₂ <:+ l) (hlen : l₁.length = l₂.length) : l₁ = l₂ := by
  obtain ⟨t1, rfl⟩ := h1
  obtain ⟨t2, e⟩ := h2
  have hl : t1.length = t2.length := by
    have := congrArg List.length e
    simp at this
    omega
  exact (List.append_inj e.symm hl).2

theorem strEndsWith_append (a b : String) : strEndsWith (a ++ b) b = true := by
  simp only [strEndsWith, String.data_append, decide_eq_true_eq]
  exact List.suffix_append a.data b.data

/-- A string ending in `".jpeg"` does not end in `".jpg"`. -/
theorem strEndsWith_jpeg_not_jpg (a : String) :
    strEndsWith (a ++ ".jpeg") ".jpg" = false := by
  simp only [strEndsWith, String.data_append, decide_eq_false_iff_not]
  intro h
  have hjpeg : "jpeg".data <:+ a.data ++ ".jpeg".data :=
    List.IsSuffix.trans (by decide) (List.suffix_append a.data ".jpeg".data)
  have heq : ".jpg".data = "jpeg".data :=
    suffix_eq_of_length_eq h hjpeg (by decide)
  exact absurd heq (by decide)

/-! ## Claims -/

/-- C1: for every media item in the current list and every star rating, the
synchronous part of `handleRate` — the state reached before the
`rateMovie` network call resolves — replaces the rated item's
`ratingsCount = c` and `avgRating = a` with `c + 1` and
`(a * c + rating) / (c + 1)`, in place. -/
theorem handleRate_optimistic_update (s : HomeState) (id : Int) (rating : ℚ)
    (i : ℕ) (it : MediaItem) (h : s.items[i]? = some it) (hid : it.id = id) :
    (handleRatePending id rating s).items[i]? =
      some { it with
               ratingsCount := it.ratingsCount + 1
               avgRating := (it.avgRating * (it.ratingsCount : ℚ) + rating)
                             / ((it.ratingsCount : ℚ) + 1) } := by
  simp [handleRatePending, rateOptimistic, List.getElem?_map, h, hid]

/-- Witness for C1: rating item 1 with 3 stars in a concrete two-item state
turns `(avg, count) = (4, 1)` into `((4*1+3)/(1+1), 2)`. -/
theorem handleRate_optimistic_update_witness :
    (handleRatePending 1 3 sampleHomeState).items[0]? =
      some { sampleItem with
               ratingsCount := sampleItem.ratingsCount + 1
               avgRating := (sampleItem.avgRating * (sampleItem.ratingsCount : ℚ) + 3)
                             / ((sampleItem.ratingsCount : ℚ) + 1) } :=
  handleRate_optimistic_update sampleHomeState 1 3 0 sampleItem rfl rfl

/-- C9 (frame effect): the optimistic update of `handleRate` leaves every
item whose id differs from the rated id completely unchanged, and preserves
the length (hence the order) of the list. -/
theorem handleRate_frame (s : HomeState) (id : Int) (rating : ℚ)
    (i : ℕ) (it : MediaItem) (h : s.items[i]? = some it) (hid : it.id ≠ id) :
    (handleRatePending id rating s).items[i]? = some it ∧
    (handleRatePending id rating s).items.length = s.items.length := by
  constructor
  · simp [handleRatePending, rateOptimistic, List.getElem?_map, h, hid]
  · simp [handleRatePending, rateOptimistic]

/-- Witness for C9: rating item 1 leaves item 2 untouched. -/
theorem handleRate_frame_witness :
    (handleRatePending 1 3 sampleHomeState).items[1]? = some otherItem ∧
    (handleRatePending 1 3 sampleHomeState).items.length = sampleHomeState.items.length :=
  handleRate_frame sampleHomeState 1 3 1 otherItem rfl (by decide)

/-- C5: when the `rateMovie` call fails after the optimistic mutation, the
item list is exactly the optimistically mutated list (no rollback) and the
error banner `Failed to rate: ...` is set. -/
theorem handleRate_failure_no_rollback (s : HomeState) (id : Int) (rating : ℚ)
    (m : String) :
    (handleRateStep id rating (RateOutcome.err m) s).items =
      (handleRatePending id rating s).items ∧
    (handleRateStep id rating (RateOutcome.err m) s).items =
      rateOptimistic id rating s.items ∧
    (handleRateStep id rating (RateOutcome.err m) s).error =
      some ("Failed to rate: " ++ m) := by
  refine ⟨rfl, rfl, rfl⟩

/-- C2: the `load` operation is gated on the debounced query length: at least
2 characters issues the server-side search, 0 characters issues the top-rated
listing, and exactly 1 character performs no fetch and substitutes the empty
result envelope. -/
theorem load_query_gating (q : String) (t : MediaType) (off : ℕ)
    (server : FetchCall → Except String SearchEnvelope) :
    (2 ≤ q.length →
        loadEnvelope server q t off = server (FetchCall.search q t LIMIT off)) ∧
    (q.length = 0 →
        loadEnvelope server q t off = server (FetchCall.top t LIMIT off)) ∧
    (q.length = 1 →
        loadRequest q t off = none ∧
        loadEnvelope server q t off =
          Except.ok { items := [], total := 0, hasMore := false,
                      filters := some [], suggestions := some [] }) := by
  refine ⟨?_, ?_, ?_⟩
  · intro h
    simp [loadEnvelope, loadRequest, h]
  · intro h
    have h2 : ¬ 2 ≤ q.length := by omega
    simp [loadEnvelope, loadRequest, h, h2]
  · intro h
    have h2 : ¬ 2 ≤ q.length := by omega
    have h0 : ¬ q.length = 0 := by omega
    constructor
    · simp [loadRequest, h2, h0]
    · simp [loadEnvelope, loadRequest, h2, h0, oneCharEnvelope]

/-- Witness for C2: the three query lengths 2, 0 and 1 at concrete inputs. -/
theorem load_query_gating_witness :
    loadEnvelope constServer "ab" MediaType.MOVIE 0 =
      constServer (FetchCall.search "ab" MediaType.MOVIE LIMIT 0) ∧
    loadEnvelope constServer "" MediaType.MOVIE 0 =
      constServer (FetchCall.top MediaType.MOVIE LIMIT 0) ∧
    (loadRequest "a" MediaType.MOVIE 0 = none ∧
     loadEnvelope constServer "a" MediaType.MOVIE 0 =
       Except.ok { items := [], total := 0, hasMore := false,
                   filters := some [], suggestions := some [] }) :=
  ⟨(load_query_gating "ab" MediaType.MOVIE 0 constServer).1 (by decide),
   (load_query_gating "" MediaType.MOVIE 0 constServer).2.1 (by decide),
   (load_query_gating "a" MediaType.MOVIE 0 constServer).2.2 (by decide)⟩

/-- C3: `loadMore` is a no-op while a fetch is in flight or `hasMore` is
false; otherwise it fetches the page at the current offset and, on success,
appends it in order to the item list and advances the offset (by `LIMIT`). -/
theorem loadMore_spec (fetchPage : ℕ → Except String (List MediaItem))
    (s : HomeListState) :
    (s.loading = true ∨ s.hasMore = false → loadMoreStep fetchPage s = s) ∧
    (s.loading = false → s.hasMore = true →
      ∀ data, fetchPage s.offset = Except.ok data →
        (loadMoreStep fetchPage s).items = s.items ++ data ∧
        (loadMoreStep fetchPage s).offset = s.offset + LIMIT) := by
  constructor
  · intro h
    rcases h with h | h <;> simp [loadMoreStep, h]
  · intro hl hm data hdata
    simp [loadMoreStep, hl, hm, loadListStep, hdata]

/-- Witness for C3: a no-op on an in-flight state, and a successful append on
an idle state. -/
theorem loadMore_spec_witness :
    loadMoreStep pageFetcher { sampleListState with loading := true } =
      { sampleListState with loading := true } ∧
    ((loadMoreStep pageFetcher sampleListState).items =
        sampleListState.items ++ List.replicate 10 otherItem ∧
     (loadMoreStep pageFetcher sampleListState).offset =
        sampleListState.offset + LIMIT) :=
  ⟨(loadMore_spec pageFetcher { sampleListState with loading := true }).1 (Or.inl rfl),
   (loadMore_spec pageFetcher sampleListState).2 rfl rfl
     (List.replicate 10 otherItem) rfl⟩

/-- C4: when a reset-triggering `load` fails (the awaited fetch rejects), the
exception is caught, the dismissible error message is set
(`e.message || "Failed to load"`), the item list is cleared, and loading
ends. -/
theorem load_reset_failure (server : FetchCall → Except String SearchEnvelope)
    (s : HomeState) (m : String) (hl : s.loading = false)
    (hf : loadEnvelope server s.query s.typ 0 = Except.error m) :
    (loadStep server true s).items = [] ∧
    (loadStep server true s).error = some (if m = "" then "Failed to load" else m) ∧
    (loadStep server true s).loading = false := by
  simp [loadStep, hl, hf]

/-- Witness for C4: a reset load against a rejecting server clears the
two-item list and sets the banner. -/
theorem load_reset_failure_witness :
    (loadStep failingServer true sampleHomeState).items = [] ∧
    (loadStep failingServer true sampleHomeState).error =
      some (if "boom" = "" then "Failed to load" else "boom") ∧
    (loadStep failingServer true sampleHomeState).loading = false :=
  load_reset_failure failingServer sampleHomeState "boom" rfl rfl

/-- C6: `handleResponse` raises exactly on non-2xx responses.  The raised
message is the server's `message` field when the error body parses as JSON
with a (non-empty string) `message`; when the body does not parse it is the
status text, falling back to `Request failed: {status}` when the status text
is empty; a parsed body without a `message` field also falls back.  A 2xx
response never raises from this status check. -/
theorem handleResponse_spec (r : Response) :
    (resOk r = true → ∀ j, r.body = some j → handleResponse r = Except.ok j) ∧
    (resOk r = false →
      (∀ j s, r.body = some j → j.getField "message" = some (Json.str s) → s ≠ "" →
          handleResponse r = Except.error s) ∧
      (r.body = none → r.statusText ≠ "" →
          handleResponse r = Except.error r.statusText) ∧
      (r.body = none → r.statusText = "" →
          handleResponse r = Except.error ("Request failed: " ++ toString r.status)) ∧
      (∀ j, r.body = some j → j.getField "message" = none →
          handleResponse r = Except.error ("Request failed: " ++ toString r.status))) := by
  constructor
  · intro hok j hj
    simp [handleResponse, hok, hj]
  · intro hbad
    refine ⟨?_, ?_, ?_, ?_⟩
    · intro j s hj hmsg hs
      simp [handleResponse, hbad, errorMessage, hj, hmsg, Json.truthy, hs,
            Json.coerceString, Json.coerceAtom]
    · intro hj hst
      simp [handleResponse, hbad, errorMessage, hj, Json.getField, fieldLookup,
            Json.truthy, hst, Json.coerceString, Json.coerceAtom]
    · intro hj hst
      simp [handleResponse, hbad, errorMessage, hj, Json.getField, fieldLookup,
            Json.truthy, hst]
    · intro j hj hmsg
      simp [handleResponse, hbad, errorMessage, hj, hmsg]

/-- Witness for C6: all five branches at concrete responses — a 404 with a
JSON `message`, a 500 with an unparseable body, the same with an empty status
text, a 404 whose JSON body has no `message`, and a plain 200. -/
theorem handleResponse_spec_witness :
    handleResponse { status := 404, statusText := "Not Found",
                     body := some (Json.obj [("message", Json.str "Movie not found")]) } =
      Except.error "Movie not found" ∧
    handleResponse { status := 500, statusText := "Internal Server Error", body := none } =
      Except.error "Internal Server Error" ∧
    handleResponse { status := 500, statusText := "", body := none } =
      Except.error ("Request failed: " ++ toString (500 : ℕ)) ∧
    handleResponse { status := 404, statusText := "Not Found",
                     body := some (Json.obj [("error", Json.str "x")]) } =
      Except.error ("Request failed: " ++ toString (404 : ℕ)) ∧
    handleResponse { status := 200, statusText := "OK", body := some Json.null } =
      Except.ok Json.null :=
  ⟨((handleResponse_spec ⟨404, "Not Found",
        some (Json.obj [("message", Json.str "Movie not found")])⟩).2
      rfl).1 _ _ rfl rfl (by decide),
   ((handleResponse_spec ⟨500, "Internal Server Error", none⟩).2 rfl).2.1
      rfl (by decide),
   ((handleResponse_spec ⟨500, "", none⟩).2 rfl).2.2.1 rfl rfl,
   ((handleResponse_spec ⟨404, "Not Found",
        some (Json.obj [("error", Json.str "x")])⟩).2 rfl).2.2.2 _ rfl rfl,
   (handleResponse_spec ⟨200, "OK", some Json.null⟩).1 rfl _ rfl⟩

/-- C7 (counterexample): the claim's final clause — any cast shape other than
a cast string or a structured `casts` array yields an empty list — is false:
`formatMovieToMediaItem` has a third branch mapping a `cast` field that is
itself an array, so `castArrMovie` (whose `cast` is an array and whose
`casts` is absent) normalizes to a non-empty cast list. -/
theorem formatMovie_other_shape_counterexample :
    ¬ (∀ m : RawMovie, castIsString m.cast = false → m.casts = none →
        (formatMovieToMediaItem m).casts = []) := by
  intro hclaim
  have h := hclaim castArrMovie rfl rfl
  have hne : (formatMovieToMediaItem castArrMovie).casts =
      [{ id := 1, role := "Actor", actor := { id := 1, name := "Jean Reno" } }] := by
    decide
  rw [hne] at h
  cases h

/-- C7 (amended): cast data is normalized to one uniform `CastMember` list —
a truthy comma-delimited `cast` string yields one entry per non-blank name
with role `Actor` and the trimmed name; otherwise a structured `casts` array
is mapped entry-by-entry with `||` defaults for missing ids, roles and actor
names; otherwise a `cast` field that is itself an array is mapped
entry-by-entry with positional ids and defaults for missing roles and actor
names; any remaining shape yields an empty list. -/
theorem formatMovie_casts_normalization (m : RawMovie) :
    (∀ s, m.cast = CastRaw.str s → s ≠ "" →
        (formatMovieToMediaItem m).casts.length =
          ((jsSplit s ", ").filter (fun n => jsTrim n ≠ "")).length ∧
        (∀ c ∈ (formatMovieToMediaItem m).casts, c.role = "Actor") ∧
        (formatMovieToMediaItem m).casts.map (fun c => c.actor.name) =
          ((jsSplit s ", ").filter (fun n => jsTrim n ≠ "")).map jsTrim) ∧
    (∀ entries, castTruthyString m.cast = false → m.casts = some entries →
        (formatMovieToMediaItem m).casts.length = entries.length ∧
        ∀ (i : ℕ) (e : CastsEntryRaw), entries[i]? = some e →
          (formatMovieToMediaItem m).casts[i]? =
            some ({ id := jsOrInt e.id ((i : Int) + 1)
                    role := jsOrStr e.role "Actor"
                    actor := { id := jsOrInt (e.actor.bind CastsActorRaw.id) ((i : Int) + 1)
                               name := jsOrStr (e.actor.bind CastsActorRaw.name)
                                         "Unknown Actor" } } : CastMember)) ∧
    (∀ entries, castTruthyString m.cast = false → m.casts = none →
        m.cast = CastRaw.arr entries →
        (formatMovieToMediaItem m).casts.length = entries.length ∧
        ∀ (i : ℕ) (e : CastArrEntry), entries[i]? = some e →
          (formatMovieToMediaItem m).casts[i]? =
            some ({ id := (i : Int) + 1
                    role := jsOrStr e.role "Actor"
                    actor := { id := (i : Int) + 1
                               name := jsOrStr e.actorName
                                         (jsOrStr e.name "Unknown Actor") } } : CastMember)) ∧
    (castTruthyString m.cast = false → castIsArray m.cast = false → m.casts = none →
        (formatMovieToMediaItem m).casts = []) := by
  refine ⟨?_, ?_, ?_, ?_⟩
  · intro s hs hne
    have hcasts : (formatMovieToMediaItem m).casts = castsFromString s := by
      simp [formatMovieToMediaItem, normalizeCasts, hs, castTruthyString, hne]
    refine ⟨?_, ?_, ?_⟩
    · rw [hcasts]
      exact mapIdxFrom_length _ _ _
    · intro c hc
      rw [hcasts] at hc
      obtain ⟨i, a, rfl⟩ := mapIdxFrom_mem _ _ _ _ hc
      rfl
    · rw [hcasts, castsFromString, mapIdxFrom_map]
      exact mapIdxFrom_const _ _ _
  · intro entries hstr hcasts
    have hc : (formatMovieToMediaItem m).casts = castsFromCasts entries := by
      simp [formatMovieToMediaItem, normalizeCasts, hstr, hcasts]
    refine ⟨by rw [hc]; exact mapIdxFrom_length _ _ _, ?_⟩
    intro i e he
    rw [hc, castsFromCasts, mapIdxFrom_getElem?, he]
    simp
  · intro entries hstr hcasts harr
    have hc : (formatMovieToMediaItem m).casts = castsFromCastArr entries := by
      simp [formatMovieToMediaItem, normalizeCasts, hstr, hcasts, harr, castTruthyString]
    refine ⟨by rw [hc]; exact mapIdxFrom_length _ _ _, ?_⟩
    intro i e he
    rw [hc, castsFromCastArr, mapIdxFrom_getElem?, he]
    simp
  · intro hstr harr hcasts
    cases hcast : m.cast with
    | absent => simp [formatMovieToMediaItem, normalizeCasts, hstr, hcasts, hcast]
    | str s =>
        rw [hcast] at hstr
        simp [castTruthyString] at hstr
        simp [formatMovieToMediaItem, normalizeCasts, hcast, hstr, hcasts,
              castTruthyString, castsFromString, hstr, mapIdxFrom]
    | arr es =>
        rw [hcast] at harr
        simp [castIsArray] at harr

/-- Witness for C7 (amended): the four branches at concrete raw movies — a
cast string of two names, a structured `casts` entry with full data, the
`cast`-array movie of the counterexample input's shape, and a movie with no
cast data at all. -/
theorem formatMovie_casts_normalization_witness :
    (formatMovieToMediaItem
        ⟨1, none, none, none, none, none, none, none,
         CastRaw.str "Al Pacino, Robert De Niro", none, none, none⟩).casts.map
        (fun c => c.actor.name) = ["Al Pacino", "Robert De Niro"] ∧
    (formatMovieToMediaItem
        ⟨2, none, none, none, none, none, none, none, CastRaw.absent,
         some [⟨some 5, some "Director", some ⟨some 9, some "Michael Mann"⟩⟩],
         none, none⟩).casts[0]? =
      some { id := 5, role := "Director", actor := { id := 9, name := "Michael Mann" } } ∧
    (formatMovieToMediaItem castArrMovie).casts[0]? =
      some { id := 1, role := "Actor", actor := { id := 1, name := "Jean Reno" } } ∧
    (formatMovieToMediaItem
        ⟨3, none, none, none, none, none, none, none, CastRaw.absent,
         none, none, none⟩).casts = [] := by
  refine ⟨?_, ?_, ?_, ?_⟩
  · have h := (formatMovie_casts_normalization
        ⟨1, none, none, none, none, none, none, none,
         CastRaw.str "Al Pacino, Robert De Niro", none, none, none⟩).1
        "Al Pacino, Robert De Niro" rfl (by decide)
    rw [h.2.2]
    decide
  · have h := ((formatMovie_casts_normalization
        ⟨2, none, none, none, none, none, none, none, CastRaw.absent,
         some [⟨some 5, some "Director", some ⟨some 9, some "Michael Mann"⟩⟩],
         none, none⟩).2.1
        [⟨some 5, some "Director", some ⟨some 9, some "Michael Mann"⟩⟩] rfl rfl).2
        0 ⟨some 5, some "Director", some ⟨some 9, some "Michael Mann"⟩⟩ rfl
    rw [h]
    decide
  · have h := ((formatMovie_casts_normalization castArrMovie).2.2.1
        [⟨none, none, some "Jean Reno"⟩] rfl rfl rfl).2
        0 ⟨none, none, some "Jean Reno"⟩ rfl
    rw [h]
    decide
  · exact (formatMovie_casts_normalization
        ⟨3, none, none, none, none, none, none, none, CastRaw.absent,
         none, none, none⟩).2.2.2 rfl rfl rfl

/-- C8: the cover image component starts at `/movie_covers/{id}.jpg`; after
one load error it shows `/movie_covers/{id}.jpeg`; after a further error it
renders the placeholder with the title; the fallback only ever moves forward
(every later error leaves it at the placeholder, never at an earlier
source). -/
theorem cover_fallback_chain (movieId : Int) (title : String) (n : ℕ) :
    coverRender title ((handleImageError movieId)^[n] (coverInit movieId)) =
      if n = 0 then CoverRender.image ("/movie_covers/" ++ toString movieId ++ ".jpg")
      else if n = 1 then CoverRender.image ("/movie_covers/" ++ toString movieId ++ ".jpeg")
      else CoverRender.placeholder title := by
  have h1 : handleImageError movieId (coverInit movieId) =
      { imgSrc := "/movie_covers/" ++ toString movieId ++ ".jpeg", hasError := false } := by
    simp [handleImageError, coverInit, strEndsWith_append]
  have h2 : handleImageError movieId
        { imgSrc := "/movie_covers/" ++ toString movieId ++ ".jpeg", hasError := false } =
      { imgSrc := "/movie_covers/" ++ toString movieId ++ ".jpeg", hasError := true } := by
    simp [handleImageError, strEndsWith_jpeg_not_jpg]
  have h3 : handleImageError movieId
        { imgSrc := "/movie_covers/" ++ toString movieId ++ ".jpeg", hasError := true } =
      { imgSrc := "/movie_covers/" ++ toString movieId ++ ".jpeg", hasError := true } := by
    simp [handleImageError, strEndsWith_jpeg_not_jpg]
  match n with
  | 0 => simp [coverRender, coverInit]
  | 1 => simp [Function.iterate_one, h1, coverRender]
  | (k + 2) =>
      have hiter : ∀ j, (handleImageError movieId)^[j + 2] (coverInit movieId) =
          { imgSrc := "/movie_covers/" ++ toString movieId ++ ".jpeg", hasError := true } := by
        intro j
        induction j with
        | zero =>
            have : (handleImageError movieId)^[2] (coverInit movieId) =
                handleImageError movieId (handleImageError movieId (coverInit movieId)) := by
              simp [Function.iterate_succ_apply, Function.iterate_one]
            rw [this, h1, h2]
        | succ k ih =>
            have : k + 1 + 2 = (k + 2) + 1 := by omega
            rw [this, Function.iterate_succ_apply', ih, h3]
      rw [hiter k]
      simp [coverRender]

/-- C10: the envelope-returning `fetchTop` never throws — its promise always
resolves — and on every network failure, non-2xx response, unparseable body
or unexpected response shape it resolves to the empty envelope
`{ items: [], total: 0, hasMore: false }`. -/
theorem fetchTop_never_throws (limit : ℕ) (out : FetchOutcome) :
    (∃ e, fetchTopCall limit out = Except.ok e) ∧
    (badTopOutcome out → fetchTopCall limit out = Except.ok emptyTopEnvelope) := by
  constructor
  · cases h : fetchTopTry limit out with
    | ok e => exact ⟨e, by simp [fetchTopCall, h]⟩
    | error m => exact ⟨emptyTopEnvelope, by simp [fetchTopCall, h]⟩
  · intro hbad
    cases out with
    | networkError m => simp [fetchTopCall, fetchTopTry]
    | response r =>
        rcases hbad with hok | hnone | ⟨j, hj, hshape⟩
        · simp [fetchTopCall, fetchTopTry, handleResponse, hok]
        · by_cases hr : resOk r
          · simp [fetchTopCall, fetchTopTry, handleResponse, hr, hnone]
          · simp [fetchTopCall, fetchTopTry, handleResponse, hr]
        · by_cases hr : resOk r
          · have hsplit : (truthyOpt (j.getField "success") &&
                truthyOpt (j.getField "data")) = false ∧ isJsonArr j = false := by
              constructor
              · cases hcase : (truthyOpt (j.getField "success") &&
                    truthyOpt (j.getField "data")) with
                | false => rfl
                | true =>
                    rw [unexpectedTopShape, hcase] at hshape
                    simp at hshape
              · cases hcase : isJsonArr j with
                | false => rfl
                | true =>
                    rw [unexpectedTopShape, hcase] at hshape
                    simp at hshape
            have hinterp : fetchTopInterpret limit j = emptyTopEnvelope := by
              cases j with
              | arr es => exact absurd hsplit.2 (by simp [isJsonArr])
              | null => simp [fetchTopInterpret, hsplit.1]
              | bool b => simp [fetchTopInterpret, hsplit.1]
              | num q => simp [fetchTopInterpret, hsplit.1]
              | str s => simp [fetchTopInterpret, hsplit.1]
              | obj fields => simp [fetchTopInterpret, hsplit.1]
            simp [fetchTopCall, fetchTopTry, handleResponse, hr, hj, hinterp]
          · simp [fetchTopCall, fetchTopTry, handleResponse, hr]

/-- Witness for C10: a rejected fetch resolves to the empty envelope. -/
theorem fetchTop_never_throws_witness :
    fetchTopCall 10 (FetchOutcome.networkError "net down") = Except.ok emptyTopEnvelope :=
  (fetchTop_never_throws 10 (FetchOutcome.networkError "net down")).2 trivial
